import Mathlib

/-!
Shallow embedding of the `datathon-dataops` movie ETL pipeline
(`src/dags/utils/process_movies_data.py` with constants from
`src/dags/utils/settings.py`).

Modelling conventions:
* a pandas `DataFrame` is a `List` of row structures (ordered rows);
* a nullable column (`NaN`) is an `Option`;
* floating-point numbers are modelled as exact rationals `ℚ`;
* a Python `dict` built from column pairs is an association list read
  with last-binding-wins semantics (as `DataFrame.to_dict` produces);
* a raising computation (`KeyError` on a missing dictionary key) is an
  `Except String` value whose error payload is the missing key;
* `pandas.merge(how := left)` keeps every left row in order, emitting one
  row per matching right row and a single all-null-right row when no
  right row matches;
* `groupby` (with the default `sort=True`, `dropna=True`) emits one row
  per distinct key, keys sorted ascending; `mean` skips nulls and is null
  on an all-null group, `sum` skips nulls and is 0 on an all-null group,
  `nunique` counts distinct non-null values;
* `Series.mode` returns every value of maximal multiplicity, sorted
  ascending; a single-valued mode lands in the aggregated cell as a
  scalar, a multi-valued mode as an array (the source dispatches on
  exactly this distinction inside `director_id2name`).
-/

/-! ### Configuration constants (`settings.py`) -/

def TITLE_TYPE : String := "movie"

def TITLE_BASICS_YEAR_FROM : Int := 2015

def TITLE_BASICS_YEAR_TO : Int := 2020

/-! ### Row types -/

/-- A row of the raw `title.basics` table, restricted to the columns the
pipeline consumes. -/
structure RawTitleBasicsRow where
  tconst : String
  titleType : String
  startYear : Option Int
  genres : Option String
  runtimeMinutes : Option Int
deriving DecidableEq, Repr

/-- A row of the cleaned title table: projection of `RawTitleBasicsRow` to
`TITLE_BASICS_USED_COLUMNS = [tconst, startYear, genres, runtimeMinutes]`,
with `startYear` known non-null after the `notna` filter. -/
structure CleanTitleBasicsRow where
  tconst : String
  startYear : Int
  genres : Option String
  runtimeMinutes : Option Int
deriving DecidableEq, Repr

/-- `process_title_basics_df`: drop rows with null `startYear`, keep rows
passing `movie_mask` (`titleType == TITLE_TYPE`) and `date_mask`
(`startYear.between(TITLE_BASICS_YEAR_FROM, TITLE_BASICS_YEAR_TO,
inclusive=True)`), project to the used columns. -/
def process_title_basics_df (df : List RawTitleBasicsRow) : List CleanTitleBasicsRow :=
  df.filterMap fun r =>
    match r.startYear with
    | none => none
    | some y =>
      if r.titleType = TITLE_TYPE ∧ TITLE_BASICS_YEAR_FROM ≤ y ∧ y ≤ TITLE_BASICS_YEAR_TO then
        some { tconst := r.tconst, startYear := y, genres := r.genres,
               runtimeMinutes := r.runtimeMinutes }
      else
        none

/-! ### Claim C1: characterisation of the cleaner, written from the spec's
words: keep exactly the rows with non-null `startYear`, `titleType` equal to
the movie marker `"movie"`, and `startYear` in the inclusive range
`[2015, 2020]`, projected to the four used columns. -/

/-- Spec-side predicate: the row survives the cleaner. -/
def titleBasicsKeptSpec (r : RawTitleBasicsRow) : Prop :=
  ∃ y : Int, r.startYear = some y ∧ r.titleType = "movie" ∧ 2015 ≤ y ∧ y ≤ 2020

instance (r : RawTitleBasicsRow) : Decidable (titleBasicsKeptSpec r) := by
  unfold titleBasicsKeptSpec
  cases h : r.startYear with
  | none => exact .isFalse (by simp [h])
  | some y => exact decidable_of_iff (r.titleType = "movie" ∧ 2015 ≤ y ∧ y ≤ 2020) (by simp [h])

/-- Spec-side projection to the four used columns. -/
def titleBasicsProjectSpec (r : RawTitleBasicsRow) : CleanTitleBasicsRow :=
  { tconst := r.tconst, startYear := r.startYear.getD 0, genres := r.genres,
    runtimeMinutes := r.runtimeMinutes }

/-- C1. `process_title_basics_df` returns exactly the rows whose `startYear`
is non-null, whose `titleType` equals `"movie"`, and whose `startYear` lies in
the inclusive range `[2015, 2020]` (the bounds themselves included), each
projected to the four used columns `tconst`, `startYear`, `genres`,
`runtimeMinutes`, in input order. -/
theorem process_title_basics_df_keeps_exactly_spec (df : List RawTitleBasicsRow) :
    process_title_basics_df df =
      (df.filter fun r => titleBasicsKeptSpec r).map titleBasicsProjectSpec := by
  induction df with
  | nil => rfl
  | cons r rest ih =>
    unfold process_title_basics_df at *
    cases h : r.startYear with
    | none =>
      simp only [List.filterMap_cons, List.filter_cons, h]
      have : ¬ titleBasicsKeptSpec r := by simp [titleBasicsKeptSpec, h]
      simp [this, ih]
    | some y =>
      by_cases hk : r.titleType = TITLE_TYPE ∧ TITLE_BASICS_YEAR_FROM ≤ y ∧ y ≤ TITLE_BASICS_YEAR_TO
      · have hspec : titleBasicsKeptSpec r := ⟨y, h, hk.1, hk.2.1, hk.2.2⟩
        simp only [List.filterMap_cons, List.filter_cons, h, hk]
        simp [hspec, ih, titleBasicsProjectSpec, h]
      · have hspec : ¬ titleBasicsKeptSpec r := by
          rintro ⟨y', hy', ht, h1, h2⟩
          rw [h] at hy'
          cases hy'
          exact hk ⟨ht, h1, h2⟩
        simp only [List.filterMap_cons, List.filter_cons, h]
        simp [hk, hspec, ih]

/-! ### Ratings joiner (`get_title_ratings`) -/

/-- A row of the raw `title.ratings` table. -/
structure RawTitleRatingsRow where
  tconst : String
  averageRating : ℚ
  numVotes : Int
deriving DecidableEq, Repr

/-- A row of the merge of clean titles with ratings: rating columns become
nullable because a left merge fills them with `NaN` when no rating row
matches. -/
structure MergedRatingsRow where
  tconst : String
  startYear : Int
  genres : Option String
  runtimeMinutes : Option Int
  averageRating : Option ℚ
  numVotes : Option ℚ
deriving DecidableEq, Repr

/-- `title_data.merge(title_ratings, how="left", on="tconst")`: every left
row is kept in order; each matching right row contributes one merged row,
and a left row with no match contributes a single row with null rating
columns. -/
def leftMergeRatings (title_data : List CleanTitleBasicsRow)
    (title_ratings : List RawTitleRatingsRow) : List MergedRatingsRow :=
  title_data.flatMap fun t =>
    match title_ratings.filter fun rr => rr.tconst = t.tconst with
    | [] =>
      [{ tconst := t.tconst, startYear := t.startYear, genres := t.genres,
         runtimeMinutes := t.runtimeMinutes, averageRating := none, numVotes := none }]
    | ms =>
      ms.map fun rr =>
        { tconst := t.tconst, startYear := t.startYear, genres := t.genres,
          runtimeMinutes := t.runtimeMinutes, averageRating := some rr.averageRating,
          numVotes := some (rr.numVotes : ℚ) }

/-- Helper for `pySplitComma`: walk the characters, cutting at each comma;
`acc` holds the current field's characters in reverse. -/
def pySplitCommaAux : List Char → List Char → List String
  | [], acc => [String.mk acc.reverse]
  | c :: rest, acc =>
    if c = ',' then String.mk acc.reverse :: pySplitCommaAux rest []
    else pySplitCommaAux rest (c :: acc)

/-- Python's `s.split(",")`: the fields of `s` between commas, in order;
`"".split(",")` is `[""]` (never the empty list). -/
def pySplitComma (s : String) : List String :=
  pySplitCommaAux s.data []

/-- A row of the titles-with-ratings table: `genres` holds a single genre
after the explode, `runtimeMinutes` has been cast to float. -/
structure TitlesWithRatingsRow where
  tconst : String
  startYear : Int
  genres : String
  runtimeMinutes : Option ℚ
  averageRating : Option ℚ
  numVotes : Option ℚ
deriving DecidableEq, Repr

/-- `get_title_ratings`: merge clean titles with ratings (left, on
`tconst`), drop rows with null `genres`, split `genres` on `","` and
explode to one row per genre, cast `runtimeMinutes` to float. -/
def get_title_ratings (clean_title_basics_df : List CleanTitleBasicsRow)
    (title_ratings_df : List RawTitleRatingsRow) : List TitlesWithRatingsRow :=
  let titles_data := leftMergeRatings clean_title_basics_df title_ratings_df
  titles_data.flatMap fun r =>
    match r.genres with
    | none => []
    | some gs =>
      (pySplitComma gs).map fun g =>
        { tconst := r.tconst, startYear := r.startYear, genres := g,
          runtimeMinutes := r.runtimeMinutes.map fun n : Int => (n : ℚ),
          averageRating := r.averageRating, numVotes := r.numVotes }

/-! ### Group aggregator (`get_year_genre_resume`) -/

/-- Pandas `mean` aggregation: skip nulls, null when every value of the
group is null. -/
def pandasMean (vals : List ℚ) : Option ℚ :=
  match vals with
  | [] => none
  | v :: vs => some (((v :: vs).sum) / ((v :: vs).length : ℚ))

/-- Pandas `sum` aggregation: skip nulls, `0` when every value of the group
is null. -/
def pandasSum (vals : List ℚ) : ℚ :=
  vals.sum

/-- Code-point lexicographic order on strings (Python's string order, which
pandas uses to sort object keys), stated on the character sequences. -/
def strLe (a b : String) : Prop :=
  a.data ≤ b.data

instance : DecidableRel strLe :=
  fun a b => inferInstanceAs (Decidable (a.data ≤ b.data))

instance : IsTrans String strLe :=
  ⟨fun _ _ _ h1 h2 => le_trans h1 h2⟩

instance : IsTotal String strLe :=
  ⟨fun a b => le_total a.data b.data⟩

instance : IsAntisymm String strLe :=
  ⟨fun _ _ h1 h2 => String.ext (le_antisymm h1 h2)⟩

/-- Ascending order on group keys `(startYear, genres)`, the order in which
`groupby` (with its default `sort=True`) emits the groups. -/
def keyLe (a b : Int × String) : Prop :=
  a.1 < b.1 ∨ (a.1 = b.1 ∧ strLe a.2 b.2)

instance : DecidableRel keyLe :=
  fun a b => inferInstanceAs (Decidable (a.1 < b.1 ∨ (a.1 = b.1 ∧ strLe a.2 b.2)))

instance : IsTrans (Int × String) keyLe := by
  refine ⟨fun a b c h1 h2 => ?_⟩
  rcases h1 with h1 | ⟨h1e, h1s⟩ <;> rcases h2 with h2 | ⟨h2e, h2s⟩
  · exact Or.inl (h1.trans h2)
  · exact Or.inl (h2e ▸ h1)
  · exact Or.inl (h1e ▸ h2)
  · exact Or.inr ⟨h1e.trans h2e, Trans.trans h1s h2s⟩

instance : IsTotal (Int × String) keyLe := by
  refine ⟨fun a b => ?_⟩
  rcases lt_trichotomy a.1 b.1 with h | h | h
  · exact Or.inl (Or.inl h)
  · rcases IsTotal.total (r := strLe) a.2 b.2 with hs | hs
    · exact Or.inl (Or.inr ⟨h, hs⟩)
    · exact Or.inr (Or.inr ⟨h.symm, hs⟩)
  · exact Or.inr (Or.inl h)

instance : IsAntisymm (Int × String) keyLe := by
  refine ⟨fun a b h1 h2 => ?_⟩
  rcases h1 with h1 | ⟨h1e, h1s⟩ <;> rcases h2 with h2 | ⟨h2e, h2s⟩
  · exact absurd h2 (lt_asymm h1)
  · exact absurd h1 (h2e ▸ lt_irrefl _)
  · exact absurd h2 (h1e ▸ lt_irrefl _)
  · exact Prod.ext h1e (antisymm h1s h2s)

/-- The distinct group keys, in the ascending order `groupby` emits them. -/
def sortedGroupKeys (keys : List (Int × String)) : List (Int × String) :=
  keys.dedup.insertionSort keyLe

/-- A row of the year/genre resume produced by
`groupby(RESUME_GROUPED_BY).agg(RESUME_AGG_FUNCTIONS_DICT)`. -/
structure ResumeRow where
  startYear : Int
  genres : String
  runtimeMinutes : Option ℚ
  averageRating : Option ℚ
  numVotes : Option ℚ
deriving DecidableEq, Repr

/-- The grouping key of a titles-with-ratings row (`RESUME_GROUPED_BY =
["startYear", "genres"]`). -/
def resumeKey (r : TitlesWithRatingsRow) : Int × String :=
  (r.startYear, r.genres)

/-- `get_year_genre_resume`: group by `(startYear, genres)` and aggregate
`runtimeMinutes` and `averageRating` with `mean` and `numVotes` with `sum`
(`RESUME_AGG_FUNCTIONS_DICT`). -/
def get_year_genre_resume (titles_data_df : List TitlesWithRatingsRow) : List ResumeRow :=
  (sortedGroupKeys (titles_data_df.map resumeKey)).map fun k =>
    let grp := titles_data_df.filter fun r => resumeKey r = k
    { startYear := k.1, genres := k.2,
      runtimeMinutes := pandasMean (grp.filterMap fun r => r.runtimeMinutes),
      averageRating := pandasMean (grp.filterMap fun r => r.averageRating),
      numVotes := some (pandasSum (grp.filterMap fun r => r.numVotes)) }

/-! ### Director name resolution (`get_id2name_dict`, `director_id2name`) -/

/-- A row of the raw `name.basics` table, restricted to the two consumed
columns. -/
structure RawNameBasicsRow where
  nconst : String
  primaryName : String
deriving DecidableEq, Repr

/-- `get_id2name_dict`: the `nconst → primaryName` mapping, kept as the
ordered list of bindings; a repeated `nconst` silently overwrites the
earlier binding when the dict is read. -/
def get_id2name_dict (name_basics_df : List RawNameBasicsRow) : List (String × String) :=
  name_basics_df.map fun r => (r.nconst, r.primaryName)

/-- Reading a Python dict built from an ordered binding list: the LAST
binding for a key wins; a missing key has no value (a raw access raises
`KeyError`). -/
def dictGet (d : List (String × String)) (k : String) : Option String :=
  d.foldl (fun acc kv => if kv.1 = k then some kv.2 else acc) none

/-- The value an aggregated `directors` cell carries into
`director_id2name`: a scalar id when the group's mode was single-valued,
a `numpy.ndarray` of ids when it was multi-valued. -/
inductive IdsCell where
  | single (id : String)
  | multiple (ids : List String)
deriving DecidableEq, Repr

/-- The Python `for id in ids: names += f"{dict[id]}; "` loop: appends
`name + "; "` per id, raising (`Except.error` with the missing key) on the
first id absent from the dict. -/
def buildNames (d : List (String × String)) : List String → String → Except String String
  | [], names => .ok names
  | id :: rest, names =>
    match dictGet d id with
    | none => .error id
    | some n => buildNames d rest (names ++ n ++ "; ")

/-- The Python `if names.endswith("; "): names = names[:-2]` step, at the
character-sequence level of Python strings. -/
def stripTrailingSep (names : String) : String :=
  if names.data.reverse.take 2 = [' ', ';'] then String.mk names.data.dropLast.dropLast
  else names

/-- `director_id2name`: an `ndarray` cell is rendered by the accumulating
loop followed by the trailing-separator strip; any other cell is treated as
a single id and rendered by one dict access. A missing id surfaces as
`Except.error` (Python `KeyError`). -/
def director_id2name (ids : IdsCell) (id2name_dict : List (String × String)) :
    Except String String :=
  match ids with
  | .multiple arr => (buildNames id2name_dict arr "").map stripTrailingSep
  | .single id =>
    match dictGet id2name_dict id with
    | none => .error id
    | some n => .ok n

/-! ### Crew aggregation (`get_crew_data_by_group`) -/

/-- A row of the raw `title.crew` table, restricted to the consumed
columns. -/
structure RawTitleCrewRow where
  tconst : String
  directors : Option String
  writers : Option String
deriving DecidableEq, Repr

/-- A crew row after the left merge with clean titles, the `genres`/
`directors` null-drops and the projection to `TITLE_CREW_USED_COLUMNS =
[startYear, genres, directors, writers]`; `genres` and `directors` still
hold their comma-joined strings. -/
structure CrewUsedRow where
  startYear : Int
  genres : String
  directors : String
  writers : Option String
deriving DecidableEq, Repr

/-- A crew row after both explodes: one single genre and one single
director id per row. -/
structure CrewExplodedRow where
  startYear : Int
  genres : String
  directors : String
  writers : Option String
deriving DecidableEq, Repr

/-- The merge/clean/projection prefix of `get_crew_data_by_group`:
`clean_title_basics_df.merge(title_crew_df, how="left", on="tconst")`,
drop rows with null `genres`, drop rows with null `directors`, keep the
used columns. A left row with no crew match gets null `directors` and so
is dropped by the `notna` filter. -/
def crewUsedRows (clean_title_basics_df : List CleanTitleBasicsRow)
    (title_crew_df : List RawTitleCrewRow) : List CrewUsedRow :=
  clean_title_basics_df.flatMap fun t =>
    match t.genres with
    | none => []
    | some gs =>
      (title_crew_df.filter fun c => c.tconst = t.tconst).filterMap fun c =>
        match c.directors with
        | none => none
        | some ds =>
          some { startYear := t.startYear, genres := gs, directors := ds,
                 writers := c.writers }

/-- The two explodes of `get_crew_data_by_group`: split `genres` and
`directors` on `","`, explode `genres` first, then `directors`. -/
def crewExplodedRows (clean_title_basics_df : List CleanTitleBasicsRow)
    (title_crew_df : List RawTitleCrewRow) : List CrewExplodedRow :=
  (crewUsedRows clean_title_basics_df title_crew_df).flatMap fun r =>
    (pySplitComma r.genres).flatMap fun g =>
      (pySplitComma r.directors).map fun d =>
        { startYear := r.startYear, genres := g, directors := d, writers := r.writers }

/-- The largest multiplicity any value attains in the list (`0` for the
empty list). -/
def maxCount (l : List String) : Nat :=
  (l.map fun v => l.count v).foldr Nat.max 0

/-- `Series.mode`: every distinct value of maximal multiplicity, in
ascending sorted order. -/
def seriesMode (l : List String) : List String :=
  (l.dedup.filter fun v => l.count v = maxCount l).insertionSort strLe

/-- How the aggregated cell of `agg({"directors": lambda x: x.mode()})`
presents the mode to the later `apply`: a bare scalar when the mode is
single-valued, an array of ids otherwise. -/
def modeCell (l : List String) : IdsCell :=
  match seriesMode l with
  | [x] => IdsCell.single x
  | xs => IdsCell.multiple xs

/-- The grouping key of an exploded crew row. -/
def crewKey (r : CrewExplodedRow) : Int × String :=
  (r.startYear, r.genres)

/-- The `n_directors` table: per group, `nunique` of the exploded director
ids (count of distinct values; `directors` is non-null here). -/
def nDirectorsTable (df : List CrewExplodedRow) : List ((Int × String) × Nat) :=
  (sortedGroupKeys (df.map crewKey)).map fun k =>
    (k, (((df.filter fun r => crewKey r = k).map fun r => r.directors).dedup).length)

/-- The `n_writers` table: per group, `nunique` of the (un-exploded,
nullable) comma-joined writer strings; `nunique` skips nulls. -/
def nWritersTable (df : List CrewExplodedRow) : List ((Int × String) × Nat) :=
  (sortedGroupKeys (df.map crewKey)).map fun k =>
    (k, (((df.filter fun r => crewKey r = k).filterMap fun r => r.writers).dedup).length)

/-- The unresolved `top_directors` table: per group, the mode of the
exploded director ids, as the cell shape `apply` will see. -/
def topDirectorCells (df : List CrewExplodedRow) : List ((Int × String) × IdsCell) :=
  (sortedGroupKeys (df.map crewKey)).map fun k =>
    (k, modeCell ((df.filter fun r => crewKey r = k).map fun r => r.directors))

/-- `get_crew_data_by_group`: merge, clean, explode, then compute the
`n_directors`, `top_directors` and `n_writers` tables; finally translate the
top-director ids to names, propagating the `KeyError` of the first id
missing from the dict. Returns the triple
`(n_directors, top_directors, n_writers)`. -/
def get_crew_data_by_group (clean_title_basics_df : List CleanTitleBasicsRow)
    (title_crew_df : List RawTitleCrewRow) (director_id2name_dict : List (String × String)) :
    Except String
      (List ((Int × String) × Nat) × List ((Int × String) × String) ×
        List ((Int × String) × Nat)) := do
  let df := crewExplodedRows clean_title_basics_df title_crew_df
  let n_directors := nDirectorsTable df
  let n_writers := nWritersTable df
  let top_directors ← (topDirectorCells df).mapM fun kc =>
    (director_id2name kc.2 director_id2name_dict).map fun s => (kc.1, s)
  return (n_directors, top_directors, n_writers)

/-! ### Pipeline driver (`run_pipeline`) -/

/-- A row of the final output table, after renaming, rounding and the
integer casts. -/
structure OutputRow where
  startYear : Int
  genres : String
  runtimeMinutes : Option ℚ
  averageRating : Option ℚ
  numVotes : Int
  numWriters : Int
  numDirectors : Int
  topDirectors : Option String
deriving DecidableEq, Repr

/-- Python 3 `round(x, 2)`: round `100 * x` to the nearest integer, ties to
the even integer (banker's rounding), divide back by 100. -/
def pyRound2 (x : ℚ) : ℚ :=
  let y := x * 100
  let f : Int := ⌊y⌋
  let r : ℚ := y - (f : ℚ)
  let n : Int :=
    if r < 1 / 2 then f
    else if r > 1 / 2 then f + 1
    else if f % 2 = 0 then f else f + 1
  (n : ℚ) / 100

/-- `astype(int)` on a float column: truncation toward zero. -/
def truncQ (x : ℚ) : Int :=
  if 0 ≤ x then ⌊x⌋ else ⌈x⌉

/-- The final merge/rename/round/cast block of `run_pipeline`: left-merge
the resume with `n_writers`, `n_directors` and `top_directors` on the group
key, reset the index into columns, rename, round `runtimeMinutes` and
`averageRating` to two decimals, cast `numVotes` and `startYear` to int,
fill missing `numDirectors` with 0 and cast to int, then overwrite
`numWriters` with `numVotes.astype(int)`. -/
def buildOutput (year_genre_resume : List ResumeRow)
    (n_directors : List ((Int × String) × Nat))
    (top_directors : List ((Int × String) × String))
    (n_writers : List ((Int × String) × Nat)) : List OutputRow :=
  year_genre_resume.map fun r =>
    let k : Int × String := (r.startYear, r.genres)
    let mergedWriters : Option Nat := (n_writers.find? fun kv => kv.1 = k).map fun kv => kv.2
    let mergedDirectors : Option Nat := (n_directors.find? fun kv => kv.1 = k).map fun kv => kv.2
    let mergedTop : Option String := (top_directors.find? fun kv => kv.1 = k).map fun kv => kv.2
    let numVotesInt : Int := truncQ (r.numVotes.getD 0)
    let _unusedWriters := mergedWriters
    { startYear := r.startYear, genres := r.genres,
      runtimeMinutes := r.runtimeMinutes.map pyRound2,
      averageRating := r.averageRating.map pyRound2,
      numVotes := numVotesInt,
      numWriters := numVotesInt,
      numDirectors := (mergedDirectors.getD 0 : Nat),
      topDirectors := mergedTop }

/-- `run_pipeline`: the whole driver, from the four raw tables to the rows
written to the output csv. The four `read_csv` loads are the four
arguments; writing the csv is modelled as returning the output rows, so an
error propagating out of any stage (`Except.error`) means no output file is
produced by the run. -/
def run_pipeline (name_basics_df : List RawNameBasicsRow)
    (title_basics_df : List RawTitleBasicsRow)
    (title_ratings_df : List RawTitleRatingsRow)
    (title_crew_df : List RawTitleCrewRow) : Except String (List OutputRow) := do
  let director_id2name_dict := get_id2name_dict name_basics_df
  let clean_title_basics := process_title_basics_df title_basics_df
  let clean_title_ratings := get_title_ratings clean_title_basics title_ratings_df
  let year_genre_resume := get_year_genre_resume clean_title_ratings
  let (n_directors, top_directors, n_writers) ←
    get_crew_data_by_group clean_title_basics title_crew_df director_id2name_dict
  return buildOutput year_genre_resume n_directors top_directors n_writers

/-! ### Claim C3: characterisation of the ratings joiner -/

/-- Spec-side: the all-null-ratings merged row a clean title contributes
when its id finds no rating row. -/
def nullRatingsMergedRow (t : CleanTitleBasicsRow) : MergedRatingsRow :=
  { tconst := t.tconst, startYear := t.startYear, genres := t.genres,
    runtimeMinutes := t.runtimeMinutes, averageRating := none, numVotes := none }

/-- Spec-side: the genre explode of one merged row, written from the spec's
words: one output row per element of `genres` split on `","`, all other
column values duplicated, `runtimeMinutes` cast to floating-point. -/
def explodeGenresSpec (r : MergedRatingsRow) : List TitlesWithRatingsRow :=
  (pySplitComma (r.genres.getD "")).map fun g =>
    { tconst := r.tconst, startYear := r.startYear, genres := g,
      runtimeMinutes := r.runtimeMinutes.map fun n : Int => (n : ℚ),
      averageRating := r.averageRating, numVotes := r.numVotes }

lemma flatMap_genres_eq_filter_explode (l : List MergedRatingsRow) :
    (l.flatMap fun r =>
        match r.genres with
        | none => []
        | some gs =>
          (pySplitComma gs).map fun g =>
            { tconst := r.tconst, startYear := r.startYear, genres := g,
              runtimeMinutes := r.runtimeMinutes.map fun n : Int => (n : ℚ),
              averageRating := r.averageRating,
              numVotes := r.numVotes : TitlesWithRatingsRow }) =
      (l.filter fun r => r.genres.isSome).flatMap explodeGenresSpec := by
  induction l with
  | nil => rfl
  | cons r rest ih =>
    simp only [List.flatMap_cons, List.filter_cons]
    cases h : r.genres with
    | none => simpa [h] using ih
    | some gs => simp [h, explodeGenresSpec, ih]

/-- C3. The joiner equals a left outer join on id followed by dropping
exactly the null-`genres` rows and exploding the split genres with the
float cast on `runtimeMinutes`; the join is non-lossy for title rows: every
clean-title row contributes a merged row with its id, and when its id is
absent from the ratings table that row carries null rating columns (no
error is possible: the function is total). -/
theorem get_title_ratings_spec (tb : List CleanTitleBasicsRow)
    (tr : List RawTitleRatingsRow) :
    get_title_ratings tb tr =
        ((leftMergeRatings tb tr).filter fun r => r.genres.isSome).flatMap
          explodeGenresSpec ∧
      (∀ t ∈ tb, ∃ r ∈ leftMergeRatings tb tr, r.tconst = t.tconst) ∧
      (∀ t ∈ tb, (∀ rr ∈ tr, rr.tconst ≠ t.tconst) →
        nullRatingsMergedRow t ∈ leftMergeRatings tb tr) := by
  refine ⟨flatMap_genres_eq_filter_explode (leftMergeRatings tb tr), ?_, ?_⟩
  · intro t ht
    cases hm : tr.filter fun rr => rr.tconst = t.tconst with
    | nil =>
      refine ⟨nullRatingsMergedRow t, ?_, rfl⟩
      unfold leftMergeRatings
      rw [List.mem_flatMap]
      exact ⟨t, ht, by rw [hm]; exact List.mem_singleton.mpr rfl⟩
    | cons m ms =>
      refine ⟨{ tconst := t.tconst, startYear := t.startYear, genres := t.genres,
                runtimeMinutes := t.runtimeMinutes, averageRating := some m.averageRating,
                numVotes := some (m.numVotes : ℚ) }, ?_, rfl⟩
      unfold leftMergeRatings
      rw [List.mem_flatMap]
      refine ⟨t, ht, ?_⟩
      rw [hm]
      exact List.mem_map.mpr ⟨m, List.mem_cons_self m ms, rfl⟩
  · intro t ht hnone
    have hm : (tr.filter fun rr => rr.tconst = t.tconst) = [] := by
      rw [List.filter_eq_nil_iff]
      intro rr hrr
      simpa using hnone rr hrr
    unfold leftMergeRatings
    rw [List.mem_flatMap]
    refine ⟨t, ht, ?_⟩
    rw [hm]
    exact List.mem_singleton.mpr rfl

/-! ### Claims C4 and C5: the group aggregator -/

lemma get_year_genre_resume_keys (rows : List TitlesWithRatingsRow) :
    (get_year_genre_resume rows).map (fun r => (r.startYear, r.genres)) =
      sortedGroupKeys (rows.map resumeKey) := by
  unfold get_year_genre_resume
  rw [List.map_map]
  have hcomp :
      ((fun r : ResumeRow => (r.startYear, r.genres)) ∘ fun k : Int × String =>
        ({ startYear := k.1, genres := k.2,
           runtimeMinutes := pandasMean ((rows.filter fun r => resumeKey r = k).filterMap
             fun r => r.runtimeMinutes),
           averageRating := pandasMean ((rows.filter fun r => resumeKey r = k).filterMap
             fun r => r.averageRating),
           numVotes := some (pandasSum ((rows.filter fun r => resumeKey r = k).filterMap
             fun r => r.numVotes)) } : ResumeRow)) = fun k : Int × String => k := by
    funext k
    rfl
  rw [hcomp]
  exact List.map_id' _

lemma mem_get_year_genre_resume (rows : List TitlesWithRatingsRow)
    (r : ResumeRow) (hr : r ∈ get_year_genre_resume rows) :
    r.runtimeMinutes =
        pandasMean ((rows.filter fun x => resumeKey x = (r.startYear, r.genres)).filterMap
          fun x => x.runtimeMinutes) ∧
      r.averageRating =
        pandasMean ((rows.filter fun x => resumeKey x = (r.startYear, r.genres)).filterMap
          fun x => x.averageRating) ∧
      r.numVotes =
        some (pandasSum ((rows.filter fun x => resumeKey x = (r.startYear, r.genres)).filterMap
          fun x => x.numVotes)) := by
  unfold get_year_genre_resume at hr
  obtain ⟨k, hk, rfl⟩ := List.mem_map.mp hr
  refine ⟨?_, ?_, ?_⟩ <;> simp

/-- C4. The resume has exactly one row per distinct `(startYear, genres)`
pair of its input — the listed keys are duplicate-free and a key appears
among them exactly when it occurs in the input — and each row aggregates
its group's `runtimeMinutes` and `averageRating` by the null-ignoring
arithmetic mean and its `numVotes` by sum. -/
theorem get_year_genre_resume_groups (rows : List TitlesWithRatingsRow) :
    ((get_year_genre_resume rows).map fun r => (r.startYear, r.genres)).Nodup ∧
      (∀ k : Int × String,
        (k ∈ (get_year_genre_resume rows).map fun r => (r.startYear, r.genres)) ↔
          k ∈ rows.map resumeKey) ∧
      ∀ r ∈ get_year_genre_resume rows,
        r.runtimeMinutes =
            pandasMean ((rows.filter fun x => resumeKey x = (r.startYear, r.genres)).filterMap
              fun x => x.runtimeMinutes) ∧
          r.averageRating =
            pandasMean ((rows.filter fun x => resumeKey x = (r.startYear, r.genres)).filterMap
              fun x => x.averageRating) ∧
          r.numVotes =
            some (pandasSum ((rows.filter fun x => resumeKey x = (r.startYear, r.genres)).filterMap
              fun x => x.numVotes)) := by
  have hperm : (sortedGroupKeys (rows.map resumeKey)).Perm (rows.map resumeKey).dedup :=
    List.perm_insertionSort keyLe (rows.map resumeKey).dedup
  refine ⟨?_, ?_, ?_⟩
  · rw [get_year_genre_resume_keys]
    exact hperm.nodup_iff.mpr (List.nodup_dedup _)
  · intro k
    rw [get_year_genre_resume_keys]
    rw [hperm.mem_iff, List.mem_dedup]
  · exact fun r hr => mem_get_year_genre_resume rows r hr

/-- Concrete titles-with-ratings row used in witnesses. -/
def exTwrRow : TitlesWithRatingsRow :=
  { tconst := "t1", startYear := 2015, genres := "Drama", runtimeMinutes := some 100,
    averageRating := some (15 / 2), numVotes := some 10 }

/-- Concrete resume row produced from `[exTwrRow]`. -/
def exResumeRow : ResumeRow :=
  { startYear := 2015, genres := "Drama", runtimeMinutes := some 100,
    averageRating := some (15 / 2), numVotes := some 10 }

set_option maxRecDepth 4000 in
theorem get_year_genre_resume_groups_witness :
    exResumeRow ∈ get_year_genre_resume [exTwrRow] ∧
      exResumeRow.runtimeMinutes =
        pandasMean (([exTwrRow].filter fun x =>
            resumeKey x = (exResumeRow.startYear, exResumeRow.genres)).filterMap
          fun x => x.runtimeMinutes) :=
  ⟨by with_unfolding_all decide,
    ((get_year_genre_resume_groups [exTwrRow]).2.2 exResumeRow
      (by with_unfolding_all decide)).1⟩

/-- A titles-with-ratings row whose measures are all null (its title id
found no rating row and its `runtimeMinutes` was already null). -/
def allNullMeasuresRow : TitlesWithRatingsRow :=
  { tconst := "t1", startYear := 2015, genres := "Drama", runtimeMinutes := none,
    averageRating := none, numVotes := none }

/-- C5 counterexample. On the one-row input whose group has only null
`numVotes`, the resume row of that group carries `numVotes = 0`, not null:
the `sum` aggregate of an all-null group is `0`, refuting the claim for the
`numVotes` measure. -/
theorem get_year_genre_resume_allnull_counterexample :
    ∃ r ∈ get_year_genre_resume [allNullMeasuresRow],
      (∀ x ∈ [allNullMeasuresRow],
        resumeKey x = (r.startYear, r.genres) → x.numVotes = none) ∧
      r.numVotes ≠ none := by
  decide

/-- C5 amended. For a group whose values are all null, the resume row has
null for the mean-aggregated measures `runtimeMinutes` and `averageRating`,
but `0` (not null) for the sum-aggregated measure `numVotes`. -/
theorem get_year_genre_resume_allnull_amended (rows : List TitlesWithRatingsRow) :
    ∀ r ∈ get_year_genre_resume rows,
      ((∀ x ∈ rows, resumeKey x = (r.startYear, r.genres) → x.runtimeMinutes = none) →
        r.runtimeMinutes = none) ∧
      ((∀ x ∈ rows, resumeKey x = (r.startYear, r.genres) → x.averageRating = none) →
        r.averageRating = none) ∧
      ((∀ x ∈ rows, resumeKey x = (r.startYear, r.genres) → x.numVotes = none) →
        r.numVotes = some 0) := by
  intro r hr
  obtain ⟨h1, h2, h3⟩ := mem_get_year_genre_resume rows r hr
  refine ⟨?_, ?_, ?_⟩
  · intro hall
    rw [h1]
    have hnil : ((rows.filter fun x => resumeKey x = (r.startYear, r.genres)).filterMap
        fun x => x.runtimeMinutes) = [] := by
      rw [List.filterMap_eq_nil_iff]
      intro x hx
      rw [List.mem_filter] at hx
      exact hall x hx.1 (by simpa using hx.2)
    rw [hnil]
    rfl
  · intro hall
    rw [h2]
    have hnil : ((rows.filter fun x => resumeKey x = (r.startYear, r.genres)).filterMap
        fun x => x.averageRating) = [] := by
      rw [List.filterMap_eq_nil_iff]
      intro x hx
      rw [List.mem_filter] at hx
      exact hall x hx.1 (by simpa using hx.2)
    rw [hnil]
    rfl
  · intro hall
    rw [h3]
    have hnil : ((rows.filter fun x => resumeKey x = (r.startYear, r.genres)).filterMap
        fun x => x.numVotes) = [] := by
      rw [List.filterMap_eq_nil_iff]
      intro x hx
      rw [List.mem_filter] at hx
      exact hall x hx.1 (by simpa using hx.2)
    rw [hnil]
    rfl

/-- The resume row the all-null group produces. -/
def exAllNullResumeRow : ResumeRow :=
  { startYear := 2015, genres := "Drama", runtimeMinutes := none, averageRating := none,
    numVotes := some 0 }

set_option maxRecDepth 8000 in
theorem get_year_genre_resume_allnull_amended_witness :
    exAllNullResumeRow ∈ get_year_genre_resume [allNullMeasuresRow] ∧
      exAllNullResumeRow.numVotes = some 0 :=
  ⟨by with_unfolding_all decide,
    (get_year_genre_resume_allnull_amended [allNullMeasuresRow] exAllNullResumeRow
        (by with_unfolding_all decide)).2.2
      (by with_unfolding_all decide)⟩

/-! ### Claim C6: the crew cross-product explosion -/

/-- Concrete clean-title table for the 2×2 scenario. -/
def exCrewTb : List CleanTitleBasicsRow :=
  [{ tconst := "t1", startYear := 2015, genres := some "Drama,Comedy",
     runtimeMinutes := some 100 }]

/-- Concrete crew table for the 2×2 scenario. -/
def exCrewTc : List RawTitleCrewRow :=
  [{ tconst := "t1", directors := some "d1,d2", writers := some "w1" }]

/-- C6. After the null-drops, each surviving joined crew row with `g`
comma-separated genres and `d` comma-separated directors expands to exactly
`g × d` exploded rows; in particular the row with genres `"Drama,Comedy"`
and directors `"d1,d2"` expands to 4 rows before grouping. -/
theorem crewExplodedRows_cross_product (tb : List CleanTitleBasicsRow)
    (tc : List RawTitleCrewRow) :
    (crewExplodedRows tb tc).length =
        ((crewUsedRows tb tc).map fun r =>
          (pySplitComma r.genres).length * (pySplitComma r.directors).length).sum ∧
      (crewExplodedRows exCrewTb exCrewTc).length = 4 := by
  constructor
  · unfold crewExplodedRows
    rw [List.length_flatMap]
    congr 1
    apply List.map_congr_left
    intro r _
    simp [Function.comp_def, List.map_const', List.sum_replicate, smul_eq_mul, mul_comm]
  · decide

/-! ### Claim C8: rendering director names -/

/-- Spec-side rendering: the names joined by `"; "` in order, with no
trailing separator. -/
def specJoin : List String → String
  | [] => ""
  | [n] => n
  | n :: rest => n ++ "; " ++ specJoin rest

/-- Concatenation of a list of strings (proof-side helper). -/
def joinAll : List String → String
  | [] => ""
  | s :: rest => s ++ joinAll rest

lemma buildNames_ok (d : List (String × String)) :
    ∀ (l : List String) (acc : String), (∀ i ∈ l, (dictGet d i).isSome) →
      buildNames d l acc =
        .ok (acc ++ joinAll (l.map fun i => (dictGet d i).getD "" ++ "; ")) := by
  intro l
  induction l with
  | nil => intro acc _; simp [buildNames, joinAll, String.append_empty]
  | cons i rest ih =>
    intro acc h
    obtain ⟨n, hn⟩ := Option.isSome_iff_exists.mp (h i (List.mem_cons_self i rest))
    have step : buildNames d (i :: rest) acc = buildNames d rest (acc ++ n ++ "; ") := by
      rw [buildNames, hn]
    rw [step, ih (acc ++ n ++ "; ") fun j hj => h j (List.mem_cons_of_mem i hj)]
    simp [joinAll, hn, String.append_assoc]

lemma joinAll_sep_eq (f : String → String) :
    ∀ l : List String, l ≠ [] →
      joinAll (l.map fun i => f i ++ "; ") = specJoin (l.map f) ++ "; " := by
  intro l
  induction l with
  | nil => intro h; exact absurd rfl h
  | cons a rest ih =>
    intro _
    cases rest with
    | nil =>
      show (f a ++ "; ") ++ joinAll [] = specJoin [f a] ++ "; "
      rw [show joinAll [] = "" from rfl, String.append_empty]
      rfl
    | cons b t =>
      show (f a ++ "; ") ++ joinAll ((b :: t).map fun i => f i ++ "; ") = _
      rw [ih (List.cons_ne_nil b t)]
      rw [show specJoin ((a :: b :: t).map f) =
        f a ++ "; " ++ specJoin ((b :: t).map f) from rfl]
      simp [String.append_assoc]

lemma strip_append_sep (s : String) : stripTrailingSep (s ++ "; ") = s := by
  unfold stripTrailingSep
  have hdata : (s ++ "; ").data = s.data ++ [';', ' '] := by
    rw [String.data_append]
  have hcond : (s ++ "; ").data.reverse.take 2 = [' ', ';'] := by
    rw [hdata, List.reverse_append]
    rfl
  rw [if_pos hcond, hdata]
  have h2 : s.data ++ [';', ' '] = (s.data ++ [';']) ++ [' '] :=
    (List.append_assoc s.data [';'] [' ']).symm
  rw [h2, List.dropLast_concat, List.dropLast_concat]

lemma director_id2name_multiple_ok (d : List (String × String)) (l : List String)
    (h : ∀ i ∈ l, (dictGet d i).isSome) :
    director_id2name (.multiple l) d =
      .ok (specJoin (l.map fun i => (dictGet d i).getD "")) := by
  have hd : director_id2name (.multiple l) d =
      Except.map stripTrailingSep (buildNames d l "") := rfl
  rw [hd, buildNames_ok d l "" h]
  show Except.ok
      (stripTrailingSep ("" ++ joinAll (l.map fun i => (dictGet d i).getD "" ++ "; "))) = _
  cases l with
  | nil => rfl
  | cons a rest =>
    rw [String.empty_append, joinAll_sep_eq (fun i => (dictGet d i).getD "") (a :: rest)
      (List.cons_ne_nil a rest), strip_append_sep]

/-- C8. For ids all present in the lookup, the rendered value is the
corresponding names joined by `"; "` in the order the ids were given, with
no trailing separator; a single (non-array) id is rendered as just its
name. -/
theorem director_id2name_joins (l : List String) (d : List (String × String))
    (h : ∀ i ∈ l, (dictGet d i).isSome) :
    director_id2name (.multiple l) d =
        .ok (specJoin (l.map fun i => (dictGet d i).getD "")) ∧
      ∀ i n : String, dictGet d i = some n → director_id2name (.single i) d = .ok n := by
  refine ⟨director_id2name_multiple_ok d l h, ?_⟩
  intro i n hn
  show (match dictGet d i with
    | none => Except.error i
    | some m => Except.ok m) = Except.ok n
  rw [hn]

/-- The lookup of the C8 scenario. -/
def exDict : List (String × String) := [("d1", "Alice"), ("d2", "Bob")]

theorem director_id2name_joins_witness :
    (∀ i ∈ ["d1", "d2"], (dictGet exDict i).isSome) ∧
      director_id2name (.multiple ["d1", "d2"]) exDict = .ok "Alice; Bob" ∧
      director_id2name (.single "d1") exDict = .ok "Alice" := by
  refine ⟨by decide, ?_, ?_⟩
  · rw [(director_id2name_joins ["d1", "d2"] exDict (by decide)).1]
    rfl
  · exact (director_id2name_joins ["d1", "d2"] exDict (by decide)).2 "d1" "Alice" (by decide)

/-! ### Claim C7: a missing director id aborts the run -/

/-- The director ids an aggregated cell holds. -/
def cellIds : IdsCell → List String
  | .single i => [i]
  | .multiple l => l

lemma buildNames_error (d : List (String × String)) :
    ∀ (l : List String) (acc : String), (∃ i ∈ l, dictGet d i = none) →
      ∃ e, buildNames d l acc = .error e := by
  intro l
  induction l with
  | nil => intro acc h; obtain ⟨i, hi, _⟩ := h; exact absurd hi (List.not_mem_nil i)
  | cons a rest ih =>
    intro acc h
    cases hd : dictGet d a with
    | none => exact ⟨a, by rw [buildNames, hd]⟩
    | some n =>
      obtain ⟨i, hi, hnone⟩ := h
      rcases List.mem_cons.mp hi with rfl | hirest
      · rw [hd] at hnone; cases hnone
      · obtain ⟨e, he⟩ := ih (acc ++ n ++ "; ") ⟨i, hirest, hnone⟩
        exact ⟨e, by rw [buildNames, hd]; exact he⟩

lemma director_id2name_error (d : List (String × String)) (cell : IdsCell)
    (h : ∃ i ∈ cellIds cell, dictGet d i = none) :
    ∃ e, director_id2name cell d = .error e := by
  cases cell with
  | single i =>
    obtain ⟨j, hj, hnone⟩ := h
    rcases List.mem_singleton.mp hj with rfl
    exact ⟨j, by
      show (match dictGet d j with
        | none => Except.error j
        | some m => Except.ok m) = Except.error j
      rw [hnone]⟩
  | multiple l =>
    obtain ⟨e, he⟩ := buildNames_error d l "" h
    exact ⟨e, by
      show Except.map stripTrailingSep (buildNames d l "") = Except.error e
      rw [he]
      rfl⟩

lemma mapM_error {α β : Type} (f : α → Except String β) :
    ∀ l : List α, (∃ a ∈ l, ∃ e, f a = .error e) → ∃ e, l.mapM f = .error e := by
  intro l
  induction l with
  | nil => intro h; obtain ⟨a, ha, _⟩ := h; exact absurd ha (List.not_mem_nil a)
  | cons a rest ih =>
    intro h
    cases hfa : f a with
    | error e => exact ⟨e, by rw [List.mapM_cons, hfa]; rfl⟩
    | ok b =>
      obtain ⟨x, hx, e, he⟩ := h
      rcases List.mem_cons.mp hx with rfl | hxr
      · rw [hfa] at he; cases he
      · obtain ⟨e2, he2⟩ := ih ⟨x, hxr, e, he⟩
        exact ⟨e2, by rw [List.mapM_cons, hfa, he2]; rfl⟩

lemma get_crew_data_by_group_error (tb : List CleanTitleBasicsRow)
    (tc : List RawTitleCrewRow) (d : List (String × String)) (e : String)
    (h : ((topDirectorCells (crewExplodedRows tb tc)).mapM fun kc =>
        (director_id2name kc.2 d).map fun s => (kc.1, s)) = Except.error e) :
    get_crew_data_by_group tb tc d = .error e := by
  unfold get_crew_data_by_group
  simp only [h]
  rfl

lemma run_pipeline_crew_error (nb : List RawNameBasicsRow)
    (tb : List RawTitleBasicsRow) (tr : List RawTitleRatingsRow)
    (tc : List RawTitleCrewRow) (e : String)
    (h : get_crew_data_by_group (process_title_basics_df tb) tc
        (get_id2name_dict nb) = .error e) :
    run_pipeline nb tb tr tc = .error e := by
  unfold run_pipeline
  simp only [h]
  rfl

/-- C7. If any director id selected as a group's top director is absent
from the id-to-name lookup, the lookup error propagates out of
`get_crew_data_by_group` and out of `run_pipeline`, so the run aborts and
produces no output rows. -/
theorem run_pipeline_missing_director_aborts (nb : List RawNameBasicsRow)
    (tb : List RawTitleBasicsRow) (tr : List RawTitleRatingsRow)
    (tc : List RawTitleCrewRow)
    (h : ∃ kc ∈ topDirectorCells (crewExplodedRows (process_title_basics_df tb) tc),
      ∃ i ∈ cellIds kc.2, dictGet (get_id2name_dict nb) i = none) :
    (∃ e, get_crew_data_by_group (process_title_basics_df tb) tc
        (get_id2name_dict nb) = .error e) ∧
      ∃ e, run_pipeline nb tb tr tc = .error e := by
  obtain ⟨kc, hkc, hmiss⟩ := h
  obtain ⟨e0, he0⟩ := director_id2name_error (get_id2name_dict nb) kc.2 hmiss
  have hcellerr : ∃ e, ((director_id2name kc.2 (get_id2name_dict nb)).map
      fun s => (kc.1, s)) = Except.error e := ⟨e0, by rw [he0]; rfl⟩
  obtain ⟨e, he⟩ := mapM_error
    (fun kc => (director_id2name kc.2 (get_id2name_dict nb)).map fun s => (kc.1, s))
    (topDirectorCells (crewExplodedRows (process_title_basics_df tb) tc))
    ⟨kc, hkc, hcellerr⟩
  have hcrew := get_crew_data_by_group_error (process_title_basics_df tb) tc
    (get_id2name_dict nb) e he
  exact ⟨⟨e, hcrew⟩, ⟨e, run_pipeline_crew_error nb tb tr tc e hcrew⟩⟩

/-- Inputs of the C7 witness: an empty name table, so director `"d1"` has
no name. -/
def exNbEmpty : List RawNameBasicsRow := []

def exTb7 : List RawTitleBasicsRow :=
  [{ tconst := "t1", titleType := "movie", startYear := some 2015,
     genres := some "Drama", runtimeMinutes := some 100 }]

def exTr7 : List RawTitleRatingsRow := []

def exTc7 : List RawTitleCrewRow :=
  [{ tconst := "t1", directors := some "d1", writers := none }]

theorem run_pipeline_missing_director_aborts_witness :
    (∃ kc ∈ topDirectorCells (crewExplodedRows (process_title_basics_df exTb7) exTc7),
      ∃ i ∈ cellIds kc.2, dictGet (get_id2name_dict exNbEmpty) i = none) ∧
      ∃ e, run_pipeline exNbEmpty exTb7 exTr7 exTc7 = .error e :=
  ⟨by with_unfolding_all decide,
    (run_pipeline_missing_director_aborts exNbEmpty exTb7 exTr7 exTc7
        (by with_unfolding_all decide)).2⟩

/-! ### Claim C10: mode tie-break order -/

lemma maxCount_perm {l₁ l₂ : List String} (h : l₁.Perm l₂) :
    maxCount l₁ = maxCount l₂ := by
  haveI : LeftCommutative Nat.max := ⟨fun a b c => max_left_comm a b c⟩
  unfold maxCount
  have hmapeq : l₂.map (fun v => l₁.count v) = l₂.map fun v => l₂.count v := by
    apply List.map_congr_left
    intro v _
    exact h.count_eq v
  have hmapperm : (l₁.map fun v => l₁.count v).Perm (l₂.map fun v => l₁.count v) :=
    h.map fun v => l₁.count v
  rw [hmapperm.foldr_eq 0, hmapeq]

lemma seriesMode_perm {l₁ l₂ : List String} (h : l₁.Perm l₂) :
    seriesMode l₁ = seriesMode l₂ := by
  unfold seriesMode
  have hp : (fun v => decide (l₁.count v = maxCount l₁)) =
      fun v => decide (l₂.count v = maxCount l₂) := by
    funext v
    rw [h.count_eq v, maxCount_perm h]
  have hfperm : (l₁.dedup.filter fun v => l₁.count v = maxCount l₁).Perm
      (l₂.dedup.filter fun v => l₂.count v = maxCount l₂) := by
    rw [show (fun v => decide (l₁.count v = maxCount l₁)) =
      (fun v => decide (l₂.count v = maxCount l₂)) from hp]
    exact List.Perm.filter _ h.dedup
  have h1 := List.perm_insertionSort strLe
    (l₁.dedup.filter fun v => l₁.count v = maxCount l₁)
  have h2 := List.perm_insertionSort strLe
    (l₂.dedup.filter fun v => l₂.count v = maxCount l₂)
  exact List.eq_of_perm_of_sorted (h1.trans (hfperm.trans h2.symm))
    (List.sorted_insertionSort strLe _) (List.sorted_insertionSort strLe _)

/-- C10. The mode of a group's director ids is ascending-sorted, is
invariant under any reordering of the group's rows (the tie-break is a
fixed deterministic rule, not row-encounter order), and the rendered
top-director string joins the tied directors' names in ascending id
order. -/
theorem seriesMode_sorted_deterministic (l₁ l₂ : List String) (hperm : l₁.Perm l₂) :
    seriesMode l₁ = seriesMode l₂ ∧
      List.Sorted strLe (seriesMode l₁) ∧
      ∀ d : List (String × String), (∀ i ∈ seriesMode l₁, (dictGet d i).isSome) →
        director_id2name (modeCell l₁) d =
          .ok (specJoin ((seriesMode l₁).map fun i => (dictGet d i).getD "")) := by
  refine ⟨seriesMode_perm hperm, List.sorted_insertionSort strLe _, ?_⟩
  intro d hall
  unfold modeCell
  cases hm : seriesMode l₁ with
  | nil =>
    show director_id2name (IdsCell.multiple []) d = _
    rw [hm] at hall
    exact director_id2name_multiple_ok d [] (by simp)
  | cons x rest =>
    cases rest with
    | nil =>
      rw [hm] at hall
      obtain ⟨n, hn⟩ := Option.isSome_iff_exists.mp (hall x (List.mem_singleton.mpr rfl))
      show (match dictGet d x with
        | none => Except.error x
        | some m => Except.ok m) =
          Except.ok (specJoin ([x].map fun i => (dictGet d i).getD ""))
      rw [hn]
      show Except.ok n = Except.ok (specJoin [(dictGet d x).getD ""])
      rw [hn]
      rfl
    | cons y t =>
      rw [hm] at hall
      show director_id2name (IdsCell.multiple (x :: y :: t)) d = _
      exact director_id2name_multiple_ok d (x :: y :: t) hall

theorem seriesMode_sorted_deterministic_witness :
    (["d2", "d1", "d2", "d1"] : List String).Perm ["d1", "d2", "d1", "d2"] ∧
      (∀ i ∈ seriesMode ["d2", "d1", "d2", "d1"], (dictGet exDict i).isSome) ∧
      director_id2name (modeCell ["d2", "d1", "d2", "d1"]) exDict = .ok "Alice; Bob" := by
  refine ⟨by decide, by decide, ?_⟩
  rw [(seriesMode_sorted_deterministic ["d2", "d1", "d2", "d1"] ["d1", "d2", "d1", "d2"]
    (by decide)).2.2 exDict (by decide)]
  rfl

/-! ### Claim C2: the final `numWriters` column -/

/-- Inputs of the C2 demonstration: one movie with one writer string, ten
votes. -/
def exNb2 : List RawNameBasicsRow := [{ nconst := "d1", primaryName := "Alice" }]

def exTb2 : List RawTitleBasicsRow :=
  [{ tconst := "t1", titleType := "movie", startYear := some 2015,
     genres := some "Drama", runtimeMinutes := some 100 }]

def exTr2 : List RawTitleRatingsRow := [{ tconst := "t1", averageRating := 7, numVotes := 10 }]

def exTc2 : List RawTitleCrewRow := [{ tconst := "t1", directors := some "d1", writers := some "w1" }]

/-- The output rows `run_pipeline` produces on the C2 demonstration
inputs. -/
def exOut2 : List OutputRow :=
  [{ startYear := 2015, genres := "Drama", runtimeMinutes := some 100,
     averageRating := some 7, numVotes := 10, numWriters := 10, numDirectors := 1,
     topDirectors := some "Alice" }]

/-- C2. In every output table of a successful run, the `numWriters` column
equals the integer-cast `numVotes` column; moreover it is not derived from
the distinct-writers aggregate: on the demonstration inputs the group's
`n_writers` value is 1 while the emitted `numWriters` is 10 (the vote
count). -/
theorem run_pipeline_numWriters_from_numVotes (nb : List RawNameBasicsRow)
    (tb : List RawTitleBasicsRow) (tr : List RawTitleRatingsRow)
    (tc : List RawTitleCrewRow) (out : List OutputRow)
    (hok : run_pipeline nb tb tr tc = .ok out) :
    (∀ r ∈ out, r.numWriters = r.numVotes) ∧
      run_pipeline exNb2 exTb2 exTr2 exTc2 = .ok exOut2 ∧
      ∃ r ∈ exOut2,
        ∃ kv ∈ nWritersTable (crewExplodedRows (process_title_basics_df exTb2) exTc2),
          kv.1 = (r.startYear, r.genres) ∧ r.numWriters ≠ (kv.2 : Int) := by
  refine ⟨?_, by with_unfolding_all rfl, by decide⟩
  intro r hr
  cases hcrew : get_crew_data_by_group (process_title_basics_df tb) tc
      (get_id2name_dict nb) with
  | error e =>
    rw [run_pipeline_crew_error nb tb tr tc e hcrew] at hok
    cases hok
  | ok triple =>
    obtain ⟨nd, td, nw⟩ := triple
    have hsteps : run_pipeline nb tb tr tc =
        Except.ok (buildOutput
          (get_year_genre_resume (get_title_ratings (process_title_basics_df tb) tr))
          nd td nw) := by
      unfold run_pipeline
      simp only [hcrew]
      rfl
    rw [hsteps] at hok
    simp only [Except.ok.injEq] at hok
    subst hok
    unfold buildOutput at hr
    obtain ⟨rr, hrr, rfl⟩ := List.mem_map.mp hr
    rfl

theorem run_pipeline_numWriters_from_numVotes_witness :
    run_pipeline exNb2 exTb2 exTr2 exTc2 = .ok exOut2 ∧
      ∀ r ∈ exOut2, r.numWriters = r.numVotes :=
  ⟨by with_unfolding_all rfl,
    (run_pipeline_numWriters_from_numVotes exNb2 exTb2 exTr2 exTc2 exOut2
        (by with_unfolding_all rfl)).1⟩

/-! ### Claim C9: determinism of the pipeline -/

/-- C9. `run_pipeline` is a pure function of its four input tables: two
runs over equal inputs produce equal results (same rows, same order, same
rounding), so a re-run on unchanged inputs reproduces the output
exactly. The embedding gives every stage — aggregation order, mode
tie-break, rounding — a deterministic definition, so no run-to-run
variation exists. -/
theorem run_pipeline_deterministic (nb nb2 : List RawNameBasicsRow)
    (tb tb2 : List RawTitleBasicsRow) (tr tr2 : List RawTitleRatingsRow)
    (tc tc2 : List RawTitleCrewRow)
    (h1 : nb = nb2) (h2 : tb = tb2) (h3 : tr = tr2) (h4 : tc = tc2) :
    run_pipeline nb tb tr tc = run_pipeline nb2 tb2 tr2 tc2 := by
  rw [h1, h2, h3, h4]

theorem run_pipeline_deterministic_witness :
    exNb2 = exNb2 ∧
      run_pipeline exNb2 exTb2 exTr2 exTc2 = run_pipeline exNb2 exTb2 exTr2 exTc2 :=
  ⟨rfl, run_pipeline_deterministic exNb2 exNb2 exTb2 exTb2 exTr2 exTr2 exTc2 exTc2
    rfl rfl rfl rfl⟩

/-- Clean-title row of the C3 witness: its id appears in no ratings row. -/
def exTitleRow : CleanTitleBasicsRow :=
  { tconst := "t9", startYear := 2016, genres := some "Drama", runtimeMinutes := none }

theorem get_title_ratings_spec_witness :
    (∀ rr ∈ ([] : List RawTitleRatingsRow), rr.tconst ≠ exTitleRow.tconst) ∧
      nullRatingsMergedRow exTitleRow ∈ leftMergeRatings [exTitleRow] [] :=
  ⟨by decide,
    (get_title_ratings_spec [exTitleRow] []).2.2 exTitleRow (by decide) (by decide)⟩
